import Mathlib

/-!
Shallow embedding of the backend of the Flat_price_prediction repository
(src/backend/app.py) for verification of its specification.

The Flask app in app.py is a set of request handlers over shared state:
a relational store (User, Admin, Prediction tables, declared in models.py)
and two in-memory token dictionaries (active_tokens, admin_tokens).
Each handler is embedded as a pure function from the request's data and
the current state to a pair of an HTTP response and the next state.

JSON values in requests are embedded as PyVal; JSON response bodies as Json.
Python dicts (token registries, request payloads) are association lists.
Floats are embedded as rationals.  The pickled model artifacts
(random_forest_model.pkl, label_encoders.pkl) are opaque parameters:
the furnishing-status label encoder is a partial map from category strings
to codes, and the regression model is a function from feature vectors to a
price that may also fault (Except).
-/

namespace FlatPrice

/-- Python/JSON value appearing in a request payload. -/
inductive PyVal where
  | vstr (s : String)
  | vint (n : Int)
  | vnum (q : ℚ)
  | vbool (b : Bool)
  | vnone
deriving DecidableEq, Repr

/-- Request payload: a JSON object, as a Python dict (association list). -/
abbrev PyDict := List (String × PyVal)

/-- JSON value appearing in a response body (built by jsonify). -/
inductive Json where
  | jnull
  | jbool (b : Bool)
  | jnum (q : ℚ)
  | jstr (s : String)
  | jarr (xs : List Json)
  | jobj (kvs : List (String × Json))
deriving Repr

/-- HTTP response: body and status code, as returned by each Flask handler. -/
structure Response where
  body : Json
  status : Nat
deriving Repr

/-- Body of the form produced by jsonify with a single error field. -/
def jerr (msg : String) : Json := .jobj [("error", .jstr msg)]

/-- Row of the User table (models.py): id, email, password hash,
is_blocked flag, creation timestamp. -/
structure User where
  id : Nat
  email : String
  password : String
  is_blocked : Bool
  created_at : Nat
deriving DecidableEq, Repr

/-- Row of the Admin table (models.py). -/
structure Admin where
  id : Nat
  email : String
  password : String
  role : String
  created_at : Nat
deriving DecidableEq, Repr

/-- Row of the Prediction table (models.py): input_data holds the
verbatim request payload (json.dumps round-trips, so the payload is
stored directly). -/
structure Prediction where
  id : Nat
  user_id : Nat
  input_data : PyDict
  price : ℚ
  favorite : Bool
  created_at : Nat
deriving DecidableEq, Repr

/-- Whole mutable state of the app: the three tables, the two in-memory
token dictionaries of app.py, the autoincrement counters of the store and
a clock supplying created_at timestamps. -/
structure AppState where
  users : List User
  admins : List Admin
  predictions : List Prediction
  active_tokens : List (String × Nat)
  admin_tokens : List (String × Nat)
  next_user_id : Nat
  next_pred_id : Nat
  now : Nat
deriving DecidableEq, Repr

/-- Python dict lookup (d[k] when present): first binding of the key. -/
def dictLookup (k : String) (d : List (String × Nat)) : Option Nat :=
  (d.find? (fun kv => kv.1 = k)).map (fun kv => kv.2)

/-- Python dict assignment d[k] = v: overwrite the key's binding, or
append a fresh binding. -/
def dictInsert (k : String) (v : Nat) (d : List (String × Nat)) :
    List (String × Nat) :=
  if (d.find? (fun kv => kv.1 = k)).isSome then
    d.map (fun kv => if kv.1 = k then (k, v) else kv)
  else d ++ [(k, v)]

/-- Python del d[k]: remove the key's binding. -/
def dictErase (k : String) (d : List (String × Nat)) : List (String × Nat) :=
  d.filter (fun kv => kv.1 ≠ k)

/-- Split a character list on every single space, keeping empty groups,
with the semantics of Python str.split with an explicit separator. -/
def splitChars : List Char → List (List Char)
  | [] => [[]]
  | c :: cs =>
    if c = ' ' then [] :: splitChars cs
    else
      match splitChars cs with
      | g :: gs => (c :: g) :: gs
      | [] => [[c]]

/-- Python s.split(" "): split on each single space, empty pieces kept. -/
def pySplitSpace (s : String) : List String :=
  (splitChars s.toList).map (fun cs => String.mk cs)

/-- ASCII lowercase conversion of one character. -/
def charLower (c : Char) : Char :=
  if 'A' ≤ c ∧ c ≤ 'Z' then Char.ofNat (c.toNat + 32) else c

/-- Python s.lower() (over the ASCII range exercised by the payloads). -/
def pyLower (s : String) : String :=
  String.mk (s.toList.map charLower)

/-- Python s.strip() as applied by float() and int() to their string
argument: leading and trailing whitespace removed. -/
def pyStrip (s : String) : List Char :=
  ((s.toList.dropWhile Char.isWhitespace).reverse.dropWhile
    Char.isWhitespace).reverse

/-- Outcome of an access guard: either a short-circuit rejection or the
resolved principal id passed to the wrapped handler. -/
inductive GuardResult where
  | reject (status : Nat) (msg : String)
  | proceed (principal_id : Nat)
deriving DecidableEq, Repr

/-- The token_required decorator of app.py, as a function of the user
token registry and the optional Authorization header.  Mirrors the code:
token starts as None; when the header is present, token becomes
header.split(" ")[1] (IndexError gives the 401 Invalid-token-format
rejection); then a falsy token (None or the empty string) gives the 401
Token-is-missing rejection; then a token absent from active_tokens gives
the 401 Invalid-or-expired rejection; otherwise the mapped user id is
passed on. -/
def token_required (active_tokens : List (String × Nat))
    (authHeader : Option String) : GuardResult :=
  match authHeader with
  | none => .reject 401 "Token is missing"
  | some h =>
    match (pySplitSpace h)[1]? with
    | none => .reject 401 "Invalid token format"
    | some token =>
      if token = "" then .reject 401 "Token is missing"
      else
        match dictLookup token active_tokens with
        | none => .reject 401 "Invalid or expired token"
        | some uid => .proceed uid

/-- The admin_required decorator of app.py: same shape as token_required
but resolving against admin_tokens, with its own invalid-token message. -/
def admin_required (admin_tokens : List (String × Nat))
    (authHeader : Option String) : GuardResult :=
  match authHeader with
  | none => .reject 401 "Token is missing"
  | some h =>
    match (pySplitSpace h)[1]? with
    | none => .reject 401 "Invalid token format"
    | some token =>
      if token = "" then .reject 401 "Token is missing"
      else
        match dictLookup token admin_tokens with
        | none => .reject 401 "Invalid or expired admin token"
        | some aid => .proceed aid

/-- Python truthiness of a payload value (the `if not x` tests of app.py):
None, empty string, zero and False are falsy. -/
def truthy : PyVal → Bool
  | .vstr s => s ≠ ""
  | .vint n => n ≠ 0
  | .vnum q => q ≠ 0
  | .vbool b => b
  | .vnone => false

/-- Python str(x) for payload values, used by the yn conversion of the
predict handler.  The rendering of a float differs in detail from CPython
but is never the string yes, the only comparison the code makes. -/
def pyStr : PyVal → String
  | .vstr s => s
  | .vint n => toString n
  | .vnum q => toString q
  | .vbool b => if b then "True" else "False"
  | .vnone => "None"

/-- Python dict .get(k): the value bound to the key, or None. -/
def dictGet (d : PyDict) (k : String) : PyVal :=
  match d.find? (fun kv => kv.1 = k) with
  | some kv => kv.2
  | none => .vnone

/-- Python subscript data[k]: the value bound to the key, or a KeyError. -/
def pyGetKey (d : PyDict) (k : String) : Except String PyVal :=
  match d.find? (fun kv => kv.1 = k) with
  | some kv => .ok kv.2
  | none => .error ("KeyError: " ++ k)

/-- Numeric value of a list of decimal digit characters. -/
def digitsToNat (cs : List Char) : Nat :=
  cs.foldl (fun a c => a * 10 + (c.toNat - 48)) 0

/-- Mantissa of a Python float literal: digits, an optional point, more
digits; at least one digit in total. -/
def parseMantissa (cs : List Char) : Option ℚ :=
  let ip := cs.takeWhile Char.isDigit
  let rest := cs.dropWhile Char.isDigit
  match rest with
  | [] => if ip.isEmpty then none else some (digitsToNat ip : ℚ)
  | '.' :: fp =>
    if fp.all Char.isDigit ∧ ¬(ip.isEmpty ∧ fp.isEmpty) then
      some ((digitsToNat ip : ℚ) + (digitsToNat fp : ℚ) / (10 : ℚ) ^ fp.length)
    else none
  | _ => none

/-- Signed exponent of a Python float literal. -/
def parseExponent (cs : List Char) : Option Int :=
  match cs with
  | '+' :: ds => if ds.all Char.isDigit ∧ ¬ds.isEmpty then some (digitsToNat ds) else none
  | '-' :: ds => if ds.all Char.isDigit ∧ ¬ds.isEmpty then some (-(digitsToNat ds : Int)) else none
  | ds => if ds.all Char.isDigit ∧ ¬ds.isEmpty then some (digitsToNat ds) else none

/-- Python float(string): strip whitespace, optional sign, decimal
mantissa, optional e/E exponent.  The special values inf and nan have no
rational counterpart and are outside this embedding. -/
def parseFloatStr (s : String) : Option ℚ :=
  let cs := pyStrip s
  let signAndRest : Bool × List Char :=
    match cs with
    | '+' :: r => (false, r)
    | '-' :: r => (true, r)
    | r => (false, r)
  let mant := (signAndRest.2).takeWhile (fun c => c ≠ 'e' ∧ c ≠ 'E')
  let rest := (signAndRest.2).dropWhile (fun c => c ≠ 'e' ∧ c ≠ 'E')
  match parseMantissa mant with
  | none => none
  | some m =>
    let signed : ℚ := if signAndRest.1 then -m else m
    match rest with
    | [] => some signed
    | _ :: ex =>
      match parseExponent ex with
      | none => none
      | some k => some (signed * (10 : ℚ) ^ k)

/-- Python int(string): strip whitespace, optional sign, decimal digits
only (a fractional part is an error). -/
def parseIntStr (s : String) : Option Int :=
  let cs := pyStrip s
  match cs with
  | '+' :: ds => if ds.all Char.isDigit ∧ ¬ds.isEmpty then some (digitsToNat ds) else none
  | '-' :: ds => if ds.all Char.isDigit ∧ ¬ds.isEmpty then some (-(digitsToNat ds : Int)) else none
  | ds => if ds.all Char.isDigit ∧ ¬ds.isEmpty then some (digitsToNat ds) else none

/-- Truncation toward zero, as Python int() applied to a float. -/
def truncQ (q : ℚ) : ℤ := if q < 0 then ⌈q⌉ else ⌊q⌋

/-- Python float(x) on a payload value. -/
def pyFloat : PyVal → Except String ℚ
  | .vstr s =>
    match parseFloatStr s with
    | some q => .ok q
    | none => .error "could not convert string to float"
  | .vint n => .ok (n : ℚ)
  | .vnum q => .ok q
  | .vbool b => .ok (if b then 1 else 0)
  | .vnone => .error "float argument must be a string or a real number, not NoneType"

/-- Python int(x) on a payload value. -/
def pyInt : PyVal → Except String Int
  | .vstr s =>
    match parseIntStr s with
    | some n => .ok n
    | none => .error "invalid literal for int with base 10"
  | .vint n => .ok n
  | .vnum q => .ok (truncQ q)
  | .vbool b => .ok (if b then 1 else 0)
  | .vnone => .error "int argument must be a string or a number, not NoneType"

/-- Rendering of a stored payload value back to response JSON
(json.loads of the stored json.dumps). -/
def pyValToJson : PyVal → Json
  | .vstr s => .jstr s
  | .vint n => .jnum (n : ℚ)
  | .vnum q => .jnum q
  | .vbool b => .jbool b
  | .vnone => .jnull

/-- Rendering of a stored payload dict back to response JSON. -/
def pyDictToJson (d : PyDict) : Json :=
  .jobj (d.map (fun kv => (kv.1, pyValToJson kv.2)))

/-- Password hashing collaborator (werkzeug generate_password_hash /
check_password_hash), opaque to this layer. -/
structure Crypto where
  hashPw : String → String
  checkPw : String → String → Bool

/-- Python round(x, 2) on the rational embedding of floats: scale by
100, round half to even as Python does, and scale back. -/
def round2 (q : ℚ) : ℚ :=
  let n := (q * 100).num
  let d : ℤ := ((q * 100).den : ℤ)
  let f := n.fdiv d
  let rem := n - f * d
  let r : ℤ :=
    if 2 * rem < d then f
    else if d < 2 * rem then f + 1
    else if f % 2 = 0 then f else f + 1
  (r : ℚ) / 100

/-- The register handler of app.py (POST /register). -/
def register (c : Crypto) (s : AppState) (body : PyDict) : Response × AppState :=
  let email := dictGet body "email"
  let password := dictGet body "password"
  if ¬truthy email ∨ ¬truthy password then
    (⟨jerr "Email and password required", 400⟩, s)
  else if (s.users.find? (fun u => PyVal.vstr u.email = email)).isSome then
    (⟨jerr "Email already registered", 400⟩, s)
  else
    let new_user : User :=
      { id := s.next_user_id, email := pyStr email,
        password := c.hashPw (pyStr password), is_blocked := false,
        created_at := s.now }
    (⟨.jobj [("message", .jstr "User registered successfully")], 200⟩,
     { s with users := s.users ++ [new_user],
              next_user_id := s.next_user_id + 1, now := s.now + 1 })

/-- The login handler of app.py (POST /login).  The fresh value produced
by secrets.token_urlsafe(32) is the tokenValue parameter. -/
def login (c : Crypto) (tokenValue : String) (s : AppState) (body : PyDict) :
    Response × AppState :=
  let email := dictGet body "email"
  let password := dictGet body "password"
  if ¬truthy email ∨ ¬truthy password then
    (⟨jerr "Email and password required", 400⟩, s)
  else
    match s.users.find? (fun u => PyVal.vstr u.email = email) with
    | none => (⟨jerr "Invalid credentials", 401⟩, s)
    | some user =>
      if ¬c.checkPw user.password (pyStr password) then
        (⟨jerr "Invalid credentials", 401⟩, s)
      else
        (⟨.jobj [("token", .jstr tokenValue),
                 ("user", .jobj [("id", .jnum user.id),
                                 ("email", .jstr user.email)])], 200⟩,
         { s with active_tokens := dictInsert tokenValue user.id s.active_tokens })

/-- The get_current_user handler of app.py (GET /me), after the guard. -/
def get_current_user (s : AppState) (current_user_id : Nat) :
    Response × AppState :=
  match s.users.find? (fun u => u.id = current_user_id) with
  | none => (⟨jerr "User not found", 404⟩, s)
  | some user =>
    (⟨.jobj [("id", .jnum user.id), ("email", .jstr user.email),
             ("created_at", .jstr (toString user.created_at))], 200⟩, s)

/-- The logout handler of app.py (POST /logout), after the guard.  The
handler re-reads the Authorization header; the token is removed from
active_tokens when present. -/
def logout (s : AppState) (authHeader : String) : Response × AppState :=
  match (pySplitSpace authHeader)[1]? with
  | none => (⟨jerr "list index out of range", 400⟩, s)
  | some token =>
    let s' :=
      if (dictLookup token s.active_tokens).isSome then
        { s with active_tokens := dictErase token s.active_tokens }
      else s
    (⟨.jobj [("message", .jstr "Logged out successfully")], 200⟩, s')

/-- The admin_login handler of app.py (POST /admin/login). -/
def admin_login (c : Crypto) (tokenValue : String) (s : AppState)
    (body : PyDict) : Response × AppState :=
  let email := dictGet body "email"
  let password := dictGet body "password"
  if ¬truthy email ∨ ¬truthy password then
    (⟨jerr "Email and password required", 400⟩, s)
  else
    match s.admins.find? (fun a => PyVal.vstr a.email = email) with
    | none => (⟨jerr "Invalid admin credentials", 401⟩, s)
    | some admin =>
      if ¬c.checkPw admin.password (pyStr password) then
        (⟨jerr "Invalid admin credentials", 401⟩, s)
      else
        (⟨.jobj [("token", .jstr tokenValue),
                 ("admin", .jobj [("id", .jnum admin.id),
                                  ("email", .jstr admin.email),
                                  ("role", .jstr admin.role)])], 200⟩,
         { s with admin_tokens := dictInsert tokenValue admin.id s.admin_tokens })

/-- The admin_logout handler of app.py (POST /admin/logout), after the
guard: removes the presented token from admin_tokens when present. -/
def admin_logout (s : AppState) (authHeader : String) : Response × AppState :=
  match (pySplitSpace authHeader)[1]? with
  | none => (⟨jerr "list index out of range", 400⟩, s)
  | some token =>
    let s' :=
      if (dictLookup token s.admin_tokens).isSome then
        { s with admin_tokens := dictErase token s.admin_tokens }
      else s
    (⟨.jobj [("message", .jstr "Admin logged out successfully")], 200⟩, s')

/-- The model artifacts loaded at process start: the furnishing-status
label encoder (a fixed partial map from category strings to codes, which
faults on a category unseen at training time) and the pickled regression
model (an opaque function that may fault). -/
structure Artifacts where
  furnishingEncoder : String → Option ℚ
  modelPredict : List ℚ → Except String ℚ

/-- The yn conversion of the predict handler: 1 when str(x).lower() is
yes, otherwise 0. -/
def yn (x : PyVal) : ℚ := if pyLower (pyStr x) = "yes" then 1 else 0

/-- LabelEncoder.transform on one payload value: only a string equal to a
category seen at training time has a code; anything else is a
previously-unseen-label fault. -/
def encTransform (enc : String → Option ℚ) (v : PyVal) : Except String ℚ :=
  match v with
  | .vstr cat =>
    match enc cat with
    | some code => .ok code
    | none => .error "y contains previously unseen labels"
  | _ => .error "y contains previously unseen labels"

/-- The feature translation performed inline by the predict handler of
app.py: the ordered input_data list built from the payload, evaluated
left to right with the first failure aborting (as the raised exception
does). -/
def translate (enc : String → Option ℚ) (data : PyDict) :
    Except String (List ℚ) := do
  let area ← pyGetKey data "area" >>= pyFloat
  let bedrooms ← pyGetKey data "bedrooms" >>= pyInt
  let bathrooms ← pyGetKey data "bathrooms" >>= pyInt
  let stories ← pyGetKey data "stories" >>= pyInt
  let mainroad ← (pyGetKey data "mainroad").map yn
  let guestroom ← (pyGetKey data "guestroom").map yn
  let basement ← (pyGetKey data "basement").map yn
  let hotwaterheating ← (pyGetKey data "hotwaterheating").map yn
  let airconditioning ← (pyGetKey data "airconditioning").map yn
  let parking ← pyGetKey data "parking" >>= pyInt
  let prefarea ← (pyGetKey data "prefarea").map yn
  let furnishing ← pyGetKey data "furnishingstatus" >>= encTransform enc
  pure [area, (bedrooms : ℚ), (bathrooms : ℚ), (stories : ℚ),
        mainroad, guestroom, basement, hotwaterheating, airconditioning,
        (parking : ℚ), prefarea, furnishing]

/-- The predict handler of app.py (POST /predict), after the guard: on a
translation or inference fault the raised exception is caught and
returned as a 400 error body; on success the rounded price is persisted
as a new Prediction row owned by current_user_id and returned with the
assigned id (jsonify without an explicit code: status 200). -/
def predict (art : Artifacts) (s : AppState) (current_user_id : Nat)
    (data : PyDict) : Response × AppState :=
  match translate art.furnishingEncoder data with
  | .error e => (⟨jerr e, 400⟩, s)
  | .ok vec =>
    match art.modelPredict vec with
    | .error e => (⟨jerr e, 400⟩, s)
    | .ok raw =>
      let price := round2 raw
      let pred : Prediction :=
        { id := s.next_pred_id, user_id := current_user_id,
          input_data := data, price := price, favorite := false,
          created_at := s.now }
      (⟨.jobj [("predicted_price", .jnum price),
               ("prediction_id", .jnum pred.id)], 200⟩,
       { s with predictions := s.predictions ++ [pred],
                next_pred_id := s.next_pred_id + 1, now := s.now + 1 })

/-- Descending insertion by a Nat key, embedding order_by(created_at.desc()). -/
def insertDescBy {α : Type} (key : α → Nat) (x : α) : List α → List α
  | [] => [x]
  | y :: ys => if key x > key y then x :: y :: ys else y :: insertDescBy key x ys

/-- Sort a table newest first by a Nat key. -/
def sortDescBy {α : Type} (key : α → Nat) (l : List α) : List α :=
  l.foldr (insertDescBy key) []

/-- Response item built by the get_history handler for one Prediction. -/
def historyItem (p : Prediction) : Json :=
  .jobj [("id", .jnum p.id), ("input", pyDictToJson p.input_data),
         ("price", .jnum p.price), ("favorite", .jbool p.favorite),
         ("created_at", .jstr (toString p.created_at))]

/-- The get_history handler of app.py (GET /history), after the guard:
the caller-owned predictions, newest first. -/
def get_history (s : AppState) (current_user_id : Nat) :
    Response × AppState :=
  let predictions :=
    sortDescBy Prediction.created_at
      (s.predictions.filter (fun p => p.user_id = current_user_id))
  (⟨.jarr (predictions.map historyItem), 200⟩, s)

/-- The delete_history handler of app.py (DELETE /history/id), after the
guard: the record must match both the id and the owner; otherwise the
404 Prediction-not-found error. -/
def delete_history (s : AppState) (current_user_id : Nat) (id : Nat) :
    Response × AppState :=
  match s.predictions.find? (fun p => p.id = id ∧ p.user_id = current_user_id) with
  | none => (⟨jerr "Prediction not found", 404⟩, s)
  | some _ =>
    (⟨.jobj [("message", .jstr "deleted")], 200⟩,
     { s with predictions :=
         s.predictions.eraseP (fun p => p.id = id ∧ p.user_id = current_user_id) })

/-- The toggle_favorite handler of app.py (PUT /history/id/favorite),
after the guard: same ownership scoping as delete_history; flips the
boolean of the matched row and returns the new value. -/
def toggle_favorite (s : AppState) (current_user_id : Nat) (id : Nat) :
    Response × AppState :=
  match s.predictions.find? (fun p => p.id = id ∧ p.user_id = current_user_id) with
  | none => (⟨jerr "Prediction not found", 404⟩, s)
  | some p =>
    (⟨.jobj [("message", .jstr "favorite toggled"),
             ("favorite", .jbool (¬p.favorite))], 200⟩,
     { s with predictions :=
         s.predictions.map (fun q =>
           if q.id = id ∧ q.user_id = current_user_id then
             { q with favorite := ¬q.favorite }
           else q) })

/-- The get_all_users handler of app.py (GET /admin/users), after the
admin guard: every user with a per-user count of predictions. -/
def get_all_users (s : AppState) : Response × AppState :=
  (⟨.jarr (s.users.map (fun u =>
      .jobj [("id", .jnum u.id), ("email", .jstr u.email),
             ("is_blocked", .jbool u.is_blocked),
             ("created_at", .jstr (toString u.created_at)),
             ("prediction_count",
              .jnum ((s.predictions.filter (fun p => p.user_id = u.id)).length))])),
    200⟩, s)

/-- The delete_user handler of app.py (DELETE /admin/users/id), after
the admin guard.  Modelled from the spec for the part living in the
absent models.py: deletion is direct row removal with no cascade over
the Prediction table and no token revocation. -/
def delete_user (s : AppState) (user_id : Nat) : Response × AppState :=
  match s.users.find? (fun u => u.id = user_id) with
  | none => (⟨jerr "User not found", 404⟩, s)
  | some _ =>
    (⟨.jobj [("message", .jstr "User deleted successfully")], 200⟩,
     { s with users := s.users.filter (fun u => u.id ≠ user_id) })

/-- The toggle_block_user handler of app.py (PUT /admin/users/id/block),
after the admin guard: flips is_blocked of the row and returns the new
value. -/
def toggle_block_user (s : AppState) (user_id : Nat) : Response × AppState :=
  match s.users.find? (fun u => u.id = user_id) with
  | none => (⟨jerr "User not found", 404⟩, s)
  | some u =>
    (⟨.jobj [("message", .jstr "User block status updated"),
             ("is_blocked", .jbool (¬u.is_blocked))], 200⟩,
     { s with users := s.users.map (fun v =>
         if v.id = user_id then { v with is_blocked := ¬v.is_blocked } else v) })

/-- Response item built by the get_all_predictions handler for one
Prediction: the owner email comes from a lookup of the owning user, with
the sentinel Unknown when no such user exists. -/
def adminPredictionItem (users : List User) (p : Prediction) : Json :=
  .jobj [("id", .jnum p.id),
         ("user_email",
          match users.find? (fun u => u.id = p.user_id) with
          | some u => .jstr u.email
          | none => .jstr "Unknown"),
         ("user_id", .jnum p.user_id),
         ("input", pyDictToJson p.input_data),
         ("price", .jnum p.price), ("favorite", .jbool p.favorite),
         ("created_at", .jstr (toString p.created_at))]

/-- The get_all_predictions handler of app.py (GET /admin/predictions),
after the admin guard: every prediction, newest first, annotated with
the owner email or Unknown. -/
def get_all_predictions (s : AppState) : Response × AppState :=
  (⟨.jarr ((sortDescBy Prediction.created_at s.predictions).map
      (adminPredictionItem s.users)), 200⟩, s)

/-- The delete_prediction_admin handler of app.py
(DELETE /admin/predictions/id), after the admin guard. -/
def delete_prediction_admin (s : AppState) (prediction_id : Nat) :
    Response × AppState :=
  match s.predictions.find? (fun p => p.id = prediction_id) with
  | none => (⟨jerr "Prediction not found", 404⟩, s)
  | some _ =>
    (⟨.jobj [("message", .jstr "Prediction deleted successfully")], 200⟩,
     { s with predictions := s.predictions.filter (fun p => p.id ≠ prediction_id) })

/-- Python max over a nonempty list of prices; the empty case is never
consulted by the guarded use in get_statistics. -/
def maxPrice : List ℚ → ℚ
  | [] => 0
  | x :: xs => xs.foldl max x

/-- Python min over a nonempty list of prices. -/
def minPrice : List ℚ → ℚ
  | [] => 0
  | x :: xs => xs.foldl min x

/-- The get_statistics handler of app.py (GET /admin/stats), after the
admin guard.  The mean, max and min of the stored prices are each
special-cased to 0 by the conditional expressions of the code when no
predictions exist. -/
def get_statistics (s : AppState) : Response × AppState :=
  let total_users := s.users.length
  let total_predictions := s.predictions.length
  let prices := s.predictions.map Prediction.price
  let avg_price : ℚ :=
    if s.predictions ≠ [] then prices.sum / (s.predictions.length : ℚ) else 0
  let recent_users := (sortDescBy User.created_at s.users).take 5
  let recent_predictions := (sortDescBy Prediction.created_at s.predictions).take 5
  let max_price : ℚ := if s.predictions ≠ [] then maxPrice prices else 0
  let min_price : ℚ := if s.predictions ≠ [] then minPrice prices else 0
  (⟨.jobj [("total_users", .jnum total_users),
           ("total_predictions", .jnum total_predictions),
           ("avg_price", .jnum (round2 avg_price)),
           ("max_price", .jnum (round2 max_price)),
           ("min_price", .jnum (round2 min_price)),
           ("recent_users_count", .jnum recent_users.length),
           ("recent_predictions_count", .jnum recent_predictions.length)],
    200⟩, s)

/-- Composition of the token_required guard with a wrapped handler: a
rejection short-circuits with the guard's error body and status and no
state change; otherwise the resolved user id is passed to the handler. -/
def withUser (s : AppState) (authHeader : Option String)
    (handler : Nat → Response × AppState) : Response × AppState :=
  match token_required s.active_tokens authHeader with
  | .reject st msg => (⟨jerr msg, st⟩, s)
  | .proceed uid => handler uid

/-- Composition of the admin_required guard with a wrapped handler. -/
def withAdmin (s : AppState) (authHeader : Option String)
    (handler : Nat → Response × AppState) : Response × AppState :=
  match admin_required s.admin_tokens authHeader with
  | .reject st msg => (⟨jerr msg, st⟩, s)
  | .proceed aid => handler aid

/-- Full POST /predict endpoint: guard then handler. -/
def predictEndpoint (art : Artifacts) (s : AppState)
    (authHeader : Option String) (body : PyDict) : Response × AppState :=
  withUser s authHeader (fun uid => predict art s uid body)

/-- Full GET /me endpoint. -/
def meEndpoint (s : AppState) (authHeader : Option String) :
    Response × AppState :=
  withUser s authHeader (fun uid => get_current_user s uid)

/-- Full GET /history endpoint. -/
def historyEndpoint (s : AppState) (authHeader : Option String) :
    Response × AppState :=
  withUser s authHeader (fun uid => get_history s uid)

/-- Full DELETE /history/id endpoint. -/
def deleteHistoryEndpoint (s : AppState) (authHeader : Option String)
    (id : Nat) : Response × AppState :=
  withUser s authHeader (fun uid => delete_history s uid id)

/-- Full PUT /history/id/favorite endpoint. -/
def toggleFavoriteEndpoint (s : AppState) (authHeader : Option String)
    (id : Nat) : Response × AppState :=
  withUser s authHeader (fun uid => toggle_favorite s uid id)

/-- Full POST /logout endpoint.  When the guard passes, the handler
re-reads the Authorization header; a request without the header cannot
pass the guard, and in that dead branch the handler's KeyError on the
missing header is the caught 400. -/
def logoutEndpoint (s : AppState) (authHeader : Option String) :
    Response × AppState :=
  match token_required s.active_tokens authHeader with
  | .reject st msg => (⟨jerr msg, st⟩, s)
  | .proceed _ =>
    match authHeader with
    | some h => logout s h
    | none => (⟨jerr "KeyError: Authorization", 400⟩, s)

/-- Full POST /admin/logout endpoint. -/
def adminLogoutEndpoint (s : AppState) (authHeader : Option String) :
    Response × AppState :=
  match admin_required s.admin_tokens authHeader with
  | .reject st msg => (⟨jerr msg, st⟩, s)
  | .proceed _ =>
    match authHeader with
    | some h => admin_logout s h
    | none => (⟨jerr "KeyError: Authorization", 400⟩, s)

/-- Full GET /admin/users endpoint. -/
def getAllUsersEndpoint (s : AppState) (authHeader : Option String) :
    Response × AppState :=
  withAdmin s authHeader (fun _ => get_all_users s)

/-- Full DELETE /admin/users/id endpoint. -/
def deleteUserEndpoint (s : AppState) (authHeader : Option String)
    (user_id : Nat) : Response × AppState :=
  withAdmin s authHeader (fun _ => delete_user s user_id)

/-- Full PUT /admin/users/id/block endpoint. -/
def toggleBlockEndpoint (s : AppState) (authHeader : Option String)
    (user_id : Nat) : Response × AppState :=
  withAdmin s authHeader (fun _ => toggle_block_user s user_id)

/-- Full GET /admin/predictions endpoint. -/
def getAllPredictionsEndpoint (s : AppState) (authHeader : Option String) :
    Response × AppState :=
  withAdmin s authHeader (fun _ => get_all_predictions s)

/-- Full DELETE /admin/predictions/id endpoint. -/
def deletePredictionAdminEndpoint (s : AppState) (authHeader : Option String)
    (prediction_id : Nat) : Response × AppState :=
  withAdmin s authHeader (fun _ => delete_prediction_admin s prediction_id)

/-- Full GET /admin/stats endpoint. -/
def statsEndpoint (s : AppState) (authHeader : Option String) :
    Response × AppState :=
  withAdmin s authHeader (fun _ => get_statistics s)

/-- One client request, with the random token values produced by
secrets.token_urlsafe supplied as oracle data. -/
inductive Op where
  | opRegister (body : PyDict)
  | opLogin (tokenValue : String) (body : PyDict)
  | opAdminLogin (tokenValue : String) (body : PyDict)
  | opMe (h : Option String)
  | opLogout (h : Option String)
  | opAdminLogout (h : Option String)
  | opPredict (h : Option String) (body : PyDict)
  | opHistory (h : Option String)
  | opDeleteHistory (h : Option String) (id : Nat)
  | opToggleFavorite (h : Option String) (id : Nat)
  | opGetAllUsers (h : Option String)
  | opDeleteUser (h : Option String) (user_id : Nat)
  | opToggleBlock (h : Option String) (user_id : Nat)
  | opGetAllPredictions (h : Option String)
  | opDeletePredictionAdmin (h : Option String) (prediction_id : Nat)
  | opStats (h : Option String)

/-- State transition of one request against the app. -/
def stepOp (c : Crypto) (art : Artifacts) (op : Op) (s : AppState) :
    AppState :=
  match op with
  | .opRegister body => (register c s body).2
  | .opLogin tok body => (login c tok s body).2
  | .opAdminLogin tok body => (admin_login c tok s body).2
  | .opMe h => (meEndpoint s h).2
  | .opLogout h => (logoutEndpoint s h).2
  | .opAdminLogout h => (adminLogoutEndpoint s h).2
  | .opPredict h body => (predictEndpoint art s h body).2
  | .opHistory h => (historyEndpoint s h).2
  | .opDeleteHistory h id => (deleteHistoryEndpoint s h id).2
  | .opToggleFavorite h id => (toggleFavoriteEndpoint s h id).2
  | .opGetAllUsers h => (getAllUsersEndpoint s h).2
  | .opDeleteUser h uid => (deleteUserEndpoint s h uid).2
  | .opToggleBlock h uid => (toggleBlockEndpoint s h uid).2
  | .opGetAllPredictions h => (getAllPredictionsEndpoint s h).2
  | .opDeletePredictionAdmin h pid => (deletePredictionAdminEndpoint s h pid).2
  | .opStats h => (statsEndpoint s h).2

/-- State after a fresh deployment: empty tables and registries, then
the create_admin.py provisioning routine, which inserts the default
admin account. -/
def initState (c : Crypto) : AppState :=
  { users := [], predictions := [],
    admins := [{ id := 1, email := "admin@flatprice.com",
                 password := c.hashPw "admin123", role := "admin",
                 created_at := 0 }],
    active_tokens := [], admin_tokens := [],
    next_user_id := 1, next_pred_id := 1, now := 1 }

/-- States reachable from a fresh deployment by any sequence of
requests. -/
inductive Reachable (c : Crypto) (art : Artifacts) : AppState → Prop where
  | init : Reachable c art (initState c)
  | step (s : AppState) (op : Op) :
      Reachable c art s → Reachable c art (stepOp c art op s)

/-- Test fixture: password hashing with the identity hash, so that any
stored hash verifies against the equal plaintext. -/
def plainCrypto : Crypto := { hashPw := fun p => p, checkPw := fun h p => h = p }

/-- Test fixture: the furnishing-status categories of the housing
dataset with their LabelEncoder codes (alphabetical fit order), and a
constant regression model. -/
def testArtifacts : Artifacts :=
  { furnishingEncoder := fun cat =>
      if cat = "furnished" then some 0
      else if cat = "semi-furnished" then some 1
      else if cat = "unfurnished" then some 2
      else none,
    modelPredict := fun _ => .ok 4200000 }

/-- The example payload of the specification for POST /predict. -/
def examplePayload : PyDict :=
  [("area", .vstr "7500"), ("bedrooms", .vint 4), ("bathrooms", .vint 2),
   ("stories", .vint 2), ("mainroad", .vstr "yes"), ("guestroom", .vstr "no"),
   ("basement", .vstr "yes"), ("hotwaterheating", .vstr "no"),
   ("airconditioning", .vstr "yes"), ("parking", .vint 2),
   ("prefarea", .vstr "yes"), ("furnishingstatus", .vstr "semi-furnished")]

/-- Test fixture: a prediction owned by user 2. -/
def fixturePredictionOfB : Prediction :=
  { id := 10, user_id := 2, input_data := [], price := 5, favorite := false,
    created_at := 3 }

/-- Test fixture: a store holding exactly one prediction, owned by
user 2. -/
def fixtureStateB : AppState :=
  { users := [], admins := [], predictions := [fixturePredictionOfB],
    active_tokens := [], admin_tokens := [], next_user_id := 3,
    next_pred_id := 11, now := 9 }

/-- Test fixture: registration request of the single regular user of the
deleted-owner scenario. -/
def regBody : PyDict := [("email", .vstr "a@b.c"), ("password", .vstr "pw")]

/-- Deleted-owner scenario, step 1: the user registers. -/
def orphanTrace1 : AppState :=
  stepOp plainCrypto testArtifacts (.opRegister regBody) (initState plainCrypto)

/-- Deleted-owner scenario, step 2: the user logs in, receiving the
token ut. -/
def orphanTrace2 : AppState :=
  stepOp plainCrypto testArtifacts (.opLogin "ut" regBody) orphanTrace1

/-- Deleted-owner scenario, step 3: the administrator logs in, receiving
the token at. -/
def orphanTrace3 : AppState :=
  stepOp plainCrypto testArtifacts
    (.opAdminLogin "at" [("email", .vstr "admin@flatprice.com"),
                         ("password", .vstr "admin123")]) orphanTrace2

/-- Deleted-owner scenario, step 4: the administrator deletes the user;
the user token ut stays in the registry. -/
def orphanTrace4 : AppState :=
  stepOp plainCrypto testArtifacts (.opDeleteUser (some "Bearer at") 1)
    orphanTrace3

/-- Test fixture: two user tokens for different principals and one admin
token, all live at once. -/
def fixtureTokensState : AppState :=
  { users := [], admins := [], predictions := [],
    active_tokens := [("t1", 1), ("t2", 2)], admin_tokens := [("a1", 5)],
    next_user_id := 3, next_pred_id := 1, now := 4 }

/-- Test fixture: the same encoder as testArtifacts with a model that
faults on every vector. -/
def faultingArtifacts : Artifacts :=
  { furnishingEncoder := testArtifacts.furnishingEncoder,
    modelPredict := fun _ => .error "inference fault" }

/-- Test fixture: the owner (user 2) of the stored prediction of
fixtureStateB. -/
def fixtureUserB : User :=
  { id := 2, email := "b@x.y", password := "pw", is_blocked := false,
    created_at := 1 }

/-- Test fixture: the store of fixtureStateB together with its owning
user row. -/
def fixtureStateBWithUser : AppState :=
  { fixtureStateB with users := [fixtureUserB] }

/-- Write of one user's is_blocked flag, leaving every other field and
every other user untouched. -/
def blockWrite (uid : Nat) (b : Bool) (u : User) : User :=
  if u.id = uid then { u with is_blocked := b } else u

/-- The state differing from s only in one user's is_blocked flag: the
two executions compared by the flag-insensitivity claim start here and
at s. -/
def setBlocked (uid : Nat) (b : Bool) (s : AppState) : AppState :=
  { s with users := s.users.map (blockWrite uid b) }

/-- Unfolding of a Python dict lookup one binding at a time. -/
theorem dictLookup_cons (kv : String × Nat) (d : List (String × Nat))
    (t : String) :
    dictLookup t (kv :: d) = if kv.1 = t then some kv.2 else dictLookup t d := by
  by_cases h : kv.1 = t <;> simp [dictLookup, List.find?_cons, h]

/-- Deleting a key from a Python dict makes its lookup fail. -/
theorem dictLookup_dictErase_self (k : String) (d : List (String × Nat)) :
    dictLookup k (dictErase k d) = none := by
  unfold dictLookup dictErase
  rw [Option.map_eq_none', List.find?_eq_none]
  intro kv hkv
  rw [List.mem_filter] at hkv
  have hne : kv.1 ≠ k := by simpa using hkv.2
  simpa using hne

/-- Removing one binding of a Python dict, one step at a time. -/
theorem dictErase_cons (k : String) (kv : String × Nat)
    (d : List (String × Nat)) :
    dictErase k (kv :: d) =
      if kv.1 = k then dictErase k d else kv :: dictErase k d := by
  by_cases h1 : kv.1 = k <;> simp [dictErase, List.filter_cons, h1]

/-- Deleting a key from a Python dict leaves every other lookup
unchanged. -/
theorem dictLookup_dictErase_ne (k t : String) (d : List (String × Nat))
    (h : t ≠ k) : dictLookup t (dictErase k d) = dictLookup t d := by
  induction d with
  | nil => rfl
  | cons kv rest ih =>
    rw [dictErase_cons]
    by_cases h1 : kv.1 = k
    · rw [if_pos h1, ih, dictLookup_cons,
        if_neg (by rw [h1]; exact fun e => h e.symm)]
    · rw [if_neg h1, dictLookup_cons, dictLookup_cons, ih]

/-- A find? over the prediction table with an ownership predicate that
no row satisfies returns nothing. -/
theorem find?_owned_none (l : List Prediction) (uid i : Nat)
    (h : ∀ p ∈ l, ¬(p.id = i ∧ p.user_id = uid)) :
    l.find? (fun p => p.id = i ∧ p.user_id = uid) = none := by
  rw [List.find?_eq_none]
  intro p hp
  simpa using h p hp

/-- Claim C1: for distinct users A and B, a DELETE /history/id or a
PUT /history/id/favorite request issued by A against a record owned by B
returns exactly the 404 Prediction-not-found error response, the very
response returned for an id present in no record at all, and the state —
in particular B's record — is left unchanged, so ownership is never
revealed by a distinguishing error. -/
theorem foreign_record_indistinguishable_from_absent
    (s : AppState) (A B i j : Nat) (hAB : A ≠ B)
    (hi : ∀ p ∈ s.predictions, p.id = i → p.user_id = B)
    (hj : ∀ p ∈ s.predictions, p.id ≠ j) :
    delete_history s A i = (⟨jerr "Prediction not found", 404⟩, s) ∧
    toggle_favorite s A i = (⟨jerr "Prediction not found", 404⟩, s) ∧
    delete_history s A i = delete_history s A j ∧
    toggle_favorite s A i = toggle_favorite s A j := by
  have hfi : s.predictions.find? (fun p => p.id = i ∧ p.user_id = A) = none := by
    refine find?_owned_none _ _ _ (fun p hp hc => ?_)
    have hB := hi p hp hc.1
    rw [hc.2] at hB
    exact hAB hB
  have hfj : s.predictions.find? (fun p => p.id = j ∧ p.user_id = A) = none := by
    refine find?_owned_none _ _ _ (fun p hp hc => hj p hp hc.1)
  unfold delete_history toggle_favorite
  simp only [hfi, hfj]
  exact ⟨trivial, trivial, trivial, trivial⟩

/-- Concrete instance of the foreign-record claim: in a store holding
one prediction owned by user 2, user 1 deleting or favorite-toggling
that record (id 10) and a nonexistent record (id 99) gets the same 404
response with no state change. -/
theorem foreign_record_indistinguishable_from_absent_witness :
    delete_history fixtureStateB 1 10 =
      (⟨jerr "Prediction not found", 404⟩, fixtureStateB) ∧
    toggle_favorite fixtureStateB 1 10 =
      (⟨jerr "Prediction not found", 404⟩, fixtureStateB) ∧
    delete_history fixtureStateB 1 10 = delete_history fixtureStateB 1 99 ∧
    toggle_favorite fixtureStateB 1 10 = toggle_favorite fixtureStateB 1 99 :=
  foreign_record_indistinguishable_from_absent fixtureStateB 1 2 10 99
    (by decide) (by decide) (by decide)

/-- Claim C10: a guarded request whose Authorization header splits into
an empty second segment (such as a trailing space, or a double space
before the token) is rejected by both guards with the 401
Token-is-missing error rather than the malformed-token error, because
the extracted empty token is falsy. -/
theorem empty_second_segment_rejected_as_missing
    (userReg adminReg : List (String × Nat)) (h : String)
    (hh : (pySplitSpace h)[1]? = some "") :
    token_required userReg (some h) = .reject 401 "Token is missing" ∧
    admin_required adminReg (some h) = .reject 401 "Token is missing" := by
  constructor <;> simp [token_required, admin_required, hh]

/-- Concrete instance of the empty-second-segment claim, with the empty
string even present in both registries: the header Bearer-space and the
header with a double space before the token are both rejected as
missing. -/
theorem empty_second_segment_rejected_as_missing_witness :
    token_required [("", 7)] (some "Bearer ") =
      .reject 401 "Token is missing" ∧
    admin_required [("", 7)] (some "Bearer  tok") =
      .reject 401 "Token is missing" :=
  ⟨(empty_second_segment_rejected_as_missing [("", 7)] [] "Bearer " rfl).1,
   (empty_second_segment_rejected_as_missing [] [("", 7)] "Bearer  tok" rfl).2⟩

/-- Claim C2 counterexample: the header Bearer-with-trailing-space
extracts the empty token, which is not in the (empty) registry, yet the
guard rejects with the missing-token error, not the
invalid-or-expired-token error the claim requires for every extracted
token absent from the registry. -/
theorem guard_taxonomy_counterexample :
    (pySplitSpace "Bearer ")[1]? = some "" ∧
    dictLookup "" ([] : List (String × Nat)) = none ∧
    token_required [] (some "Bearer ") = .reject 401 "Token is missing" ∧
    token_required [] (some "Bearer ") ≠
      .reject 401 "Invalid or expired token" := by
  exact ⟨rfl, rfl, rfl, by decide⟩

/-- Claim C2 (amended): both guards reject with 401 in an ordered
three-way taxonomy: no Authorization header is the missing-token error;
a header with no space-separated second segment is the malformed-token
error; a nonempty extracted token absent from the applicable registry is
the invalid-or-expired-token error (an extracted empty second segment is
instead treated as a missing token). -/
theorem guard_three_way_taxonomy
    (userReg adminReg : List (String × Nat)) (h tok : String) :
    (token_required userReg none = .reject 401 "Token is missing" ∧
     admin_required adminReg none = .reject 401 "Token is missing") ∧
    ((pySplitSpace h)[1]? = none →
      token_required userReg (some h) = .reject 401 "Invalid token format" ∧
      admin_required adminReg (some h) = .reject 401 "Invalid token format") ∧
    ((pySplitSpace h)[1]? = some tok → tok ≠ "" →
      dictLookup tok userReg = none →
      token_required userReg (some h) =
        .reject 401 "Invalid or expired token") ∧
    ((pySplitSpace h)[1]? = some tok → tok ≠ "" →
      dictLookup tok adminReg = none →
      admin_required adminReg (some h) =
        .reject 401 "Invalid or expired admin token") := by
  refine ⟨⟨rfl, rfl⟩, fun h1 => ⟨?_, ?_⟩, fun h1 h2 h3 => ?_,
    fun h1 h2 h3 => ?_⟩
  · simp [token_required, h1]
  · simp [admin_required, h1]
  · simp [token_required, h1, h2, h3]
  · simp [admin_required, h1, h2, h3]

/-- Concrete instance of the taxonomy: an unknown nonempty token under a
populated registry is rejected as invalid-or-expired by each guard, a
header without a second segment is rejected as malformed, and an absent
header is rejected as missing. -/
theorem guard_three_way_taxonomy_witness :
    token_required [("tok", 5)] none = .reject 401 "Token is missing" ∧
    token_required [("tok", 5)] (some "Bearer") =
      .reject 401 "Invalid token format" ∧
    token_required [("tok", 5)] (some "Bearer abc") =
      .reject 401 "Invalid or expired token" ∧
    admin_required [("tok", 5)] (some "Bearer abc") =
      .reject 401 "Invalid or expired admin token" :=
  ⟨(guard_three_way_taxonomy [("tok", 5)] [] "x" "x").1.1,
   ((guard_three_way_taxonomy [("tok", 5)] [] "Bearer" "x").2.1 rfl).1,
   (guard_three_way_taxonomy [("tok", 5)] [] "Bearer abc" "abc").2.2.1 rfl
     (by decide) rfl,
   (guard_three_way_taxonomy [] [("tok", 5)] "Bearer abc" "abc").2.2.2 rfl
     (by decide) rfl⟩

/-- Claim C9: a logout presenting one token removes exactly that token's
mapping from its own registry: the token no longer resolves, every other
token of the same registry still resolves to the same principal, and the
other registry is untouched; mirrored for admin logout. -/
theorem logout_revokes_only_presented_token
    (s : AppState) (hU hA tokU tokA : String)
    (hu : (pySplitSpace hU)[1]? = some tokU)
    (ha : (pySplitSpace hA)[1]? = some tokA) :
    (dictLookup tokU ((logout s hU).2).active_tokens = none ∧
     (∀ t, t ≠ tokU →
       dictLookup t ((logout s hU).2).active_tokens =
         dictLookup t s.active_tokens) ∧
     ((logout s hU).2).admin_tokens = s.admin_tokens) ∧
    (dictLookup tokA ((admin_logout s hA).2).admin_tokens = none ∧
     (∀ t, t ≠ tokA →
       dictLookup t ((admin_logout s hA).2).admin_tokens =
         dictLookup t s.admin_tokens) ∧
     ((admin_logout s hA).2).active_tokens = s.active_tokens) := by
  unfold logout admin_logout
  rw [hu, ha]
  constructor
  · by_cases hin : (dictLookup tokU s.active_tokens).isSome
    · simp only [hin, if_pos]
      exact ⟨dictLookup_dictErase_self _ _,
        fun t ht => dictLookup_dictErase_ne _ _ _ ht, trivial⟩
    · simp only [hin, if_neg, Bool.false_eq_true, not_false_iff]
      exact ⟨Option.not_isSome_iff_eq_none.mp hin, fun t ht => trivial, trivial⟩
  · by_cases hin : (dictLookup tokA s.admin_tokens).isSome
    · simp only [hin, if_pos]
      exact ⟨dictLookup_dictErase_self _ _,
        fun t ht => dictLookup_dictErase_ne _ _ _ ht, trivial⟩
    · simp only [hin, if_neg, Bool.false_eq_true, not_false_iff]
      exact ⟨Option.not_isSome_iff_eq_none.mp hin, fun t ht => trivial, trivial⟩

/-- Concrete instance of the revocation claim: logging out with t1
leaves t2 resolving to user 2 and the admin registry untouched, and the
mirrored admin logout leaves the user registry untouched. -/
theorem logout_revokes_only_presented_token_witness :
    dictLookup "t1" ((logout fixtureTokensState "Bearer t1").2).active_tokens
      = none ∧
    dictLookup "t2" ((logout fixtureTokensState "Bearer t1").2).active_tokens
      = some 2 ∧
    ((logout fixtureTokensState "Bearer t1").2).admin_tokens =
      fixtureTokensState.admin_tokens ∧
    dictLookup "a1"
      ((admin_logout fixtureTokensState "Bearer a1").2).admin_tokens = none ∧
    ((admin_logout fixtureTokensState "Bearer a1").2).active_tokens =
      fixtureTokensState.active_tokens := by
  have h := logout_revokes_only_presented_token fixtureTokensState
    "Bearer t1" "Bearer a1" "t1" "a1" rfl rfl
  refine ⟨h.1.1, ?_, h.1.2.2, h.2.1, h.2.2.2⟩
  rw [h.1.2.1 "t2" (by decide)]
  rfl

/-- Claim C4: a POST /predict request whose feature translation or model
inference fails returns status 400 with the caught exception as the JSON
error body, and the prediction store — indeed the whole state — is left
exactly as it was: no partial or empty record is persisted. -/
theorem predict_failure_leaves_store_unchanged
    (art : Artifacts) (s : AppState) (uid : Nat) (data : PyDict) :
    (∀ e, translate art.furnishingEncoder data = .error e →
      predict art s uid data = (⟨jerr e, 400⟩, s)) ∧
    (∀ vec e, translate art.furnishingEncoder data = .ok vec →
      art.modelPredict vec = .error e →
      predict art s uid data = (⟨jerr e, 400⟩, s)) := by
  constructor
  · intro e he
    simp only [predict, he]
  · intro vec e hv he
    simp only [predict, hv, he]

/-- Concrete instance of the failure-atomicity claim: a payload with no
area key fails translation with the KeyError as 400 body and no state
change, and a faulting model turns the fully valid example payload into
a 400 with no state change. -/
theorem predict_failure_leaves_store_unchanged_witness :
    predict testArtifacts fixtureStateB 1 [] =
      (⟨jerr "KeyError: area", 400⟩, fixtureStateB) ∧
    predict faultingArtifacts fixtureStateB 1 examplePayload =
      (⟨jerr "inference fault", 400⟩, fixtureStateB) :=
  ⟨(predict_failure_leaves_store_unchanged testArtifacts fixtureStateB 1
      []).1 "KeyError: area" rfl,
   (predict_failure_leaves_store_unchanged faultingArtifacts fixtureStateB 1
      examplePayload).2 [7500, 4, 2, 2, 1, 0, 1, 0, 1, 2, 1, 1]
      "inference fault" rfl rfl⟩

/-- Claim C6: with no predictions stored, GET /admin/stats returns
avg_price, max_price and min_price all 0 with status 200 and no fault:
the division by the prediction count and the min/max reductions over the
price list are guarded by the emptiness conditionals. -/
theorem stats_empty_store_all_prices_zero (s : AppState)
    (h : s.predictions = []) :
    get_statistics s =
      (⟨.jobj [("total_users", .jnum s.users.length),
               ("total_predictions", .jnum 0),
               ("avg_price", .jnum 0), ("max_price", .jnum 0),
               ("min_price", .jnum 0),
               ("recent_users_count",
                .jnum ((sortDescBy User.created_at s.users).take 5).length),
               ("recent_predictions_count", .jnum 0)], 200⟩, s) := by
  unfold get_statistics
  rw [h]
  norm_num [round2, sortDescBy]

/-- Concrete instance of the empty-store statistics claim at the state
of a fresh deployment. -/
theorem stats_empty_store_all_prices_zero_witness :
    get_statistics (initState plainCrypto) =
      (⟨.jobj [("total_users", .jnum 0),
               ("total_predictions", .jnum 0),
               ("avg_price", .jnum 0), ("max_price", .jnum 0),
               ("min_price", .jnum 0),
               ("recent_users_count", .jnum 0),
               ("recent_predictions_count", .jnum 0)], 200⟩,
       initState plainCrypto) :=
  stats_empty_store_all_prices_zero (initState plainCrypto) rfl

/-- Claim C8 (store semantics modelled from the spec, models.py being
absent): admin deletion of a user removes only the User row — every
prediction, including the deleted user's, remains in the store — and the
admin prediction listing then annotates each prediction of the deleted
owner with the sentinel Unknown. -/
theorem delete_user_keeps_predictions_listed_unknown
    (s : AppState) (uid : Nat) (u : User)
    (hu : s.users.find? (fun v => v.id = uid) = some u) :
    ((delete_user s uid).2).predictions = s.predictions ∧
    (delete_user s uid).1 =
      ⟨.jobj [("message", .jstr "User deleted successfully")], 200⟩ ∧
    (get_all_predictions (delete_user s uid).2).1 =
      ⟨.jarr ((sortDescBy Prediction.created_at s.predictions).map
        (adminPredictionItem ((delete_user s uid).2).users)), 200⟩ ∧
    (∀ p ∈ s.predictions, p.user_id = uid →
      adminPredictionItem ((delete_user s uid).2).users p =
        .jobj [("id", .jnum p.id), ("user_email", .jstr "Unknown"),
               ("user_id", .jnum p.user_id),
               ("input", pyDictToJson p.input_data),
               ("price", .jnum p.price), ("favorite", .jbool p.favorite),
               ("created_at", .jstr (toString p.created_at))]) := by
  unfold delete_user
  rw [hu]
  refine ⟨rfl, rfl, rfl, ?_⟩
  intro p hp hpu
  unfold adminPredictionItem
  have hnone : ((s.users.filter (fun v => v.id ≠ uid)).find?
      (fun v => v.id = p.user_id)) = none := by
    rw [List.find?_eq_none]
    intro v hv
    rw [List.mem_filter] at hv
    have hvne : v.id ≠ uid := by simpa using hv.2
    simp [hpu, hvne]
  rw [hnone]

/-- Concrete instance of the orphaned-predictions claim: deleting user 2
leaves the prediction table unchanged and the admin listing annotates
the orphaned prediction with Unknown. -/
theorem delete_user_keeps_predictions_listed_unknown_witness :
    ((delete_user fixtureStateBWithUser 2).2).predictions =
      [fixturePredictionOfB] ∧
    adminPredictionItem ((delete_user fixtureStateBWithUser 2).2).users
        fixturePredictionOfB =
      .jobj [("id", .jnum 10), ("user_email", .jstr "Unknown"),
             ("user_id", .jnum 2), ("input", pyDictToJson []),
             ("price", .jnum 5), ("favorite", .jbool false),
             ("created_at", .jstr (toString 3))] := by
  have h := delete_user_keeps_predictions_listed_unknown
    fixtureStateBWithUser 2 fixtureUserB rfl
  exact ⟨h.1, h.2.2.2 fixturePredictionOfB (by decide) rfl⟩

/-- Claim C7: feature translation is deterministic, on the example
payload of the specification the vector built ahead of the model call is
exactly 7500.0, 4, 2, 2, 1, 0, 1, 0, 1, 2, 1 followed by the fixed
encoder's code for semi-furnished, and the binary fields map
case-insensitively yes to 1 and anything else to 0. -/
theorem translate_example_vector (enc : String → Option ℚ) (e : ℚ)
    (he : enc "semi-furnished" = some e) :
    (∀ d : PyDict, translate enc d = translate enc d) ∧
    translate enc examplePayload =
      .ok [7500, 4, 2, 2, 1, 0, 1, 0, 1, 2, 1, e] ∧
    (∀ v : PyVal, pyLower (pyStr v) = "yes" → yn v = 1) ∧
    (∀ v : PyVal, pyLower (pyStr v) ≠ "yes" → yn v = 0) := by
  refine ⟨fun d => rfl, ?_, fun v hv => by simp [yn, hv],
    fun v hv => by simp [yn, hv]⟩
  have hshape : translate enc examplePayload =
      Except.map (fun f => [7500, 4, 2, 2, 1, 0, 1, 0, 1, 2, 1, f])
        (encTransform enc (.vstr "semi-furnished")) := rfl
  rw [hshape]
  simp only [encTransform, he]
  rfl

/-- Concrete instance of the translation claim with the label-encoder
fixture (semi-furnished has code 1): the example payload translates to
the example vector, an uppercase yes still maps to 1 and a non-yes
string maps to 0. -/
theorem translate_example_vector_witness :
    translate testArtifacts.furnishingEncoder examplePayload =
      .ok [7500, 4, 2, 2, 1, 0, 1, 0, 1, 2, 1, 1] ∧
    yn (.vstr "YES") = 1 ∧ yn (.vstr "no") = 0 := by
  have h := translate_example_vector testArtifacts.furnishingEncoder 1 rfl
  exact ⟨h.2.1, h.2.2.1 (.vstr "YES") rfl, h.2.2.2 (.vstr "no") (by decide)⟩

/-- Claim C3 counterexample: a reachable state — register, login, admin
login, admin deletes the user — in which the deleted user's token ut is
still registered; the next POST /predict bearing ut succeeds with status
200 and creates a prediction owned by user id 1 although the User table
is empty, so the owner does not exist at creation time. -/
theorem prediction_created_for_deleted_user :
    Reachable plainCrypto testArtifacts orphanTrace4 ∧
    orphanTrace4.users = [] ∧
    dictLookup "ut" orphanTrace4.active_tokens = some 1 ∧
    (predictEndpoint testArtifacts orphanTrace4 (some "Bearer ut")
      examplePayload).1.status = 200 ∧
    (predictEndpoint testArtifacts orphanTrace4 (some "Bearer ut")
      examplePayload).2.predictions.map Prediction.user_id = [1] :=
  ⟨Reachable.step orphanTrace3 (.opDeleteUser (some "Bearer at") 1)
    (Reachable.step orphanTrace2
      (.opAdminLogin "at" [("email", .vstr "admin@flatprice.com"),
                           ("password", .vstr "admin123")])
      (Reachable.step orphanTrace1 (.opLogin "ut" regBody)
        (Reachable.step (initState plainCrypto) (.opRegister regBody)
          Reachable.init))),
   rfl, rfl, rfl, rfl⟩

/-- Claim C3 (amended): at creation a Prediction's user_id is exactly
the principal id the guard resolved from the presented token, and admin
user-deletion leaves both token registries untouched; a still-registered
token of a deleted user therefore creates a prediction whose owner no
longer exists in the User table. -/
theorem prediction_owner_is_token_principal
    (art : Artifacts) (s : AppState) (uid : Nat) (data : PyDict)
    (vec : List ℚ) (price : ℚ)
    (ht : translate art.furnishingEncoder data = .ok vec)
    (hm : art.modelPredict vec = .ok price) :
    (predict art s uid data).2.predictions =
      s.predictions ++
        [{ id := s.next_pred_id, user_id := uid, input_data := data,
           price := round2 price, favorite := false,
           created_at := s.now }] ∧
    (∀ s' uid', ((delete_user s' uid').2).active_tokens = s'.active_tokens ∧
      ((delete_user s' uid').2).admin_tokens = s'.admin_tokens) := by
  constructor
  · simp only [predict, ht, hm]
  · intro s' uid'
    unfold delete_user
    cases h : s'.users.find? (fun v => v.id = uid') <;> simp

/-- Concrete instance of the amended creation claim on the deleted-owner
trace: the prediction appended by /predict is owned by the token's
principal id 1, and the user deletion of the trace left the user token
registry untouched. -/
theorem prediction_owner_is_token_principal_witness :
    (predict testArtifacts orphanTrace4 1 examplePayload).2.predictions =
      orphanTrace4.predictions ++
        [{ id := orphanTrace4.next_pred_id, user_id := 1,
           input_data := examplePayload, price := round2 4200000,
           favorite := false, created_at := orphanTrace4.now }] ∧
    ((delete_user orphanTrace3 1).2).active_tokens =
      orphanTrace3.active_tokens :=
  have h := prediction_owner_is_token_principal testArtifacts orphanTrace4 1
    examplePayload [7500, 4, 2, 2, 1, 0, 1, 0, 1, 2, 1, 1] 4200000 rfl rfl
  ⟨h.1, (h.2 orphanTrace3 1).1⟩

/-- Writing the flag does not change the user's id. -/
@[simp] theorem blockWrite_id (uid : Nat) (b : Bool) (u : User) :
    (blockWrite uid b u).id = u.id := by
  unfold blockWrite; split <;> rfl

/-- Writing the flag does not change the user's email. -/
@[simp] theorem blockWrite_email (uid : Nat) (b : Bool) (u : User) :
    (blockWrite uid b u).email = u.email := by
  unfold blockWrite; split <;> rfl

/-- Writing the flag does not change the user's password hash. -/
@[simp] theorem blockWrite_password (uid : Nat) (b : Bool) (u : User) :
    (blockWrite uid b u).password = u.password := by
  unfold blockWrite; split <;> rfl

/-- Writing the flag does not change the user's creation timestamp. -/
@[simp] theorem blockWrite_created_at (uid : Nat) (b : Bool) (u : User) :
    (blockWrite uid b u).created_at = u.created_at := by
  unfold blockWrite; split <;> rfl

/-- A find? over a mapped table commutes with the map when the map does
not change the predicate's verdict. -/
theorem find?_map_pred {α : Type} (g : α → α) (p : α → Bool) (l : List α)
    (hp : ∀ u, p (g u) = p u) :
    (l.map g).find? p = (l.find? p).map g := by
  induction l with
  | nil => rfl
  | cons u rest ih =>
    by_cases hpu : p u
    · rw [List.map_cons, List.find?_cons_of_pos _ (by rw [hp u]; exact hpu),
        List.find?_cons_of_pos _ hpu, Option.map_some']
    · rw [List.map_cons,
        List.find?_cons_of_neg _ (by rw [hp u]; exact hpu),
        List.find?_cons_of_neg _ hpu, ih]

/-- Flag-insensitivity of login: starting from the state with one user's
flag rewritten, login returns the identical response and a final state
that is the flag-rewrite of the original final state. -/
theorem login_setBlocked (c : Crypto) (tok : String) (uid : Nat) (b : Bool)
    (s : AppState) (body : PyDict) :
    login c tok (setBlocked uid b s) body =
      ((login c tok s body).1, setBlocked uid b (login c tok s body).2) := by
  unfold login setBlocked
  by_cases hreq :
      ¬truthy (dictGet body "email") = true ∨
      ¬truthy (dictGet body "password") = true
  · simp only [if_pos hreq]
  · simp only [if_neg hreq]
    have hf := find?_map_pred (blockWrite uid b)
      (fun u => PyVal.vstr u.email = dictGet body "email") s.users
      (fun u => by simp)
    simp only [hf]
    cases hfind : s.users.find?
        (fun u => PyVal.vstr u.email = dictGet body "email") with
    | none => simp
    | some u =>
      simp only [Option.map_some']
      by_cases hpw : c.checkPw (blockWrite uid b u).password (pyStr (dictGet body "password"))
      · rw [blockWrite_password] at hpw
        simp [hpw]
      · rw [blockWrite_password] at hpw
        simp [hpw]

/-- Flag-insensitivity of the get_current_user handler. -/
theorem get_current_user_setBlocked (uid : Nat) (b : Bool) (s : AppState)
    (cur : Nat) :
    get_current_user (setBlocked uid b s) cur =
      ((get_current_user s cur).1,
       setBlocked uid b (get_current_user s cur).2) := by
  unfold get_current_user setBlocked
  have hf := find?_map_pred (blockWrite uid b)
    (fun u => u.id = cur) s.users (fun u => by simp)
  simp only [hf]
  cases hfind : s.users.find? (fun u => u.id = cur) with
  | none => simp
  | some u => simp

/-- Flag-insensitivity of the logout handler. -/
theorem logout_setBlocked (uid : Nat) (b : Bool) (s : AppState)
    (h : String) :
    logout (setBlocked uid b s) h =
      ((logout s h).1, setBlocked uid b (logout s h).2) := by
  unfold logout setBlocked
  cases htok : (pySplitSpace h)[1]? with
  | none => simp
  | some tok =>
    by_cases hin : (dictLookup tok s.active_tokens).isSome <;> simp [hin]

/-- Flag-insensitivity of the predict handler. -/
theorem predict_setBlocked (art : Artifacts) (uid : Nat) (b : Bool)
    (s : AppState) (cur : Nat) (data : PyDict) :
    predict art (setBlocked uid b s) cur data =
      ((predict art s cur data).1,
       setBlocked uid b (predict art s cur data).2) := by
  unfold predict setBlocked
  cases ht : translate art.furnishingEncoder data with
  | error e => simp
  | ok vec =>
    cases hm : art.modelPredict vec with
    | error e => simp [hm]
    | ok raw => simp [hm]

/-- Flag-insensitivity of the get_history handler. -/
theorem get_history_setBlocked (uid : Nat) (b : Bool) (s : AppState)
    (cur : Nat) :
    get_history (setBlocked uid b s) cur =
      ((get_history s cur).1, setBlocked uid b (get_history s cur).2) := rfl

/-- Flag-insensitivity of the delete_history handler. -/
theorem delete_history_setBlocked (uid : Nat) (b : Bool) (s : AppState)
    (cur i : Nat) :
    delete_history (setBlocked uid b s) cur i =
      ((delete_history s cur i).1,
       setBlocked uid b (delete_history s cur i).2) := by
  unfold delete_history setBlocked
  cases hfind : s.predictions.find?
      (fun p => p.id = i ∧ p.user_id = cur) with
  | none => simp [hfind]
  | some p => simp [hfind]

/-- Flag-insensitivity of the toggle_favorite handler. -/
theorem toggle_favorite_setBlocked (uid : Nat) (b : Bool) (s : AppState)
    (cur i : Nat) :
    toggle_favorite (setBlocked uid b s) cur i =
      ((toggle_favorite s cur i).1,
       setBlocked uid b (toggle_favorite s cur i).2) := by
  unfold toggle_favorite setBlocked
  cases hfind : s.predictions.find?
      (fun p => p.id = i ∧ p.user_id = cur) with
  | none => simp [hfind]
  | some p => simp [hfind]

/-- Rewriting a flag leaves the user token registry unchanged. -/
@[simp] theorem setBlocked_active_tokens (uid : Nat) (b : Bool)
    (s : AppState) : (setBlocked uid b s).active_tokens = s.active_tokens :=
  rfl

/-- Rewriting a flag leaves the admin token registry unchanged. -/
@[simp] theorem setBlocked_admin_tokens (uid : Nat) (b : Bool)
    (s : AppState) : (setBlocked uid b s).admin_tokens = s.admin_tokens :=
  rfl

/-- Claim C5: toggling a user's is_blocked flag stores the new value and
reports it, but the flag is not enforced anywhere: from two states
differing only in one user's flag, login with any credentials and every
guarded user request — /me, /logout, /predict, /history,
DELETE /history/id, PUT /history/id/favorite — produce identical
responses, and final states again differing only in that flag. -/
theorem is_blocked_not_enforced (c : Crypto) (art : Artifacts)
    (uid : Nat) (b : Bool) (s : AppState) (tok : String) (body : PyDict)
    (h : Option String) (i : Nat) :
    (∀ u, s.users.find? (fun v => v.id = uid) = some u →
      (toggle_block_user s uid).1 =
        ⟨.jobj [("message", .jstr "User block status updated"),
                ("is_blocked", .jbool (¬u.is_blocked))], 200⟩ ∧
      ((toggle_block_user s uid).2).users.find? (fun v => v.id = uid) =
        some { u with is_blocked := ¬u.is_blocked }) ∧
    login c tok (setBlocked uid b s) body =
      ((login c tok s body).1, setBlocked uid b (login c tok s body).2) ∧
    meEndpoint (setBlocked uid b s) h =
      ((meEndpoint s h).1, setBlocked uid b (meEndpoint s h).2) ∧
    logoutEndpoint (setBlocked uid b s) h =
      ((logoutEndpoint s h).1, setBlocked uid b (logoutEndpoint s h).2) ∧
    predictEndpoint art (setBlocked uid b s) h body =
      ((predictEndpoint art s h body).1,
       setBlocked uid b (predictEndpoint art s h body).2) ∧
    historyEndpoint (setBlocked uid b s) h =
      ((historyEndpoint s h).1, setBlocked uid b (historyEndpoint s h).2) ∧
    deleteHistoryEndpoint (setBlocked uid b s) h i =
      ((deleteHistoryEndpoint s h i).1,
       setBlocked uid b (deleteHistoryEndpoint s h i).2) ∧
    toggleFavoriteEndpoint (setBlocked uid b s) h i =
      ((toggleFavoriteEndpoint s h i).1,
       setBlocked uid b (toggleFavoriteEndpoint s h i).2) := by
  refine ⟨?_, login_setBlocked c tok uid b s body, ?_, ?_, ?_, ?_, ?_, ?_⟩
  · intro u hu
    have huid : u.id = uid := by simpa using List.find?_some hu
    have hflip := find?_map_pred
      (fun v => if v.id = uid then { v with is_blocked := ¬v.is_blocked }
                else v)
      (fun v => v.id = uid) s.users
      (fun v => by by_cases hv : v.id = uid <;> simp [hv])
    constructor
    · unfold toggle_block_user
      rw [hu]
    · unfold toggle_block_user
      rw [hu]
      simp only [hflip, hu, Option.map_some']
      simp [huid]
  · unfold meEndpoint withUser
    simp only [setBlocked_active_tokens]
    cases hg : token_required s.active_tokens h with
    | reject st msg => rfl
    | proceed p => exact get_current_user_setBlocked uid b s p
  · unfold logoutEndpoint
    simp only [setBlocked_active_tokens]
    cases hg : token_required s.active_tokens h with
    | reject st msg => rfl
    | proceed p =>
      cases h with
      | none => rfl
      | some hh => exact logout_setBlocked uid b s hh
  · unfold predictEndpoint withUser
    simp only [setBlocked_active_tokens]
    cases hg : token_required s.active_tokens h with
    | reject st msg => rfl
    | proceed p => exact predict_setBlocked art uid b s p body
  · unfold historyEndpoint withUser
    simp only [setBlocked_active_tokens]
    cases hg : token_required s.active_tokens h with
    | reject st msg => rfl
    | proceed p => exact get_history_setBlocked uid b s p
  · unfold deleteHistoryEndpoint withUser
    simp only [setBlocked_active_tokens]
    cases hg : token_required s.active_tokens h with
    | reject st msg => rfl
    | proceed p => exact delete_history_setBlocked uid b s p i
  · unfold toggleFavoriteEndpoint withUser
    simp only [setBlocked_active_tokens]
    cases hg : token_required s.active_tokens h with
    | reject st msg => rfl
    | proceed p => exact toggle_favorite_setBlocked uid b s p i

/-- Concrete instance of the flag claim: toggling user 2 reports the
flipped flag, and login behaves identically from the state with the
flag set. -/
theorem is_blocked_not_enforced_witness :
    (toggle_block_user fixtureStateBWithUser 2).1 =
      ⟨.jobj [("message", .jstr "User block status updated"),
              ("is_blocked", .jbool true)], 200⟩ ∧
    login plainCrypto "tk" (setBlocked 2 true fixtureStateBWithUser)
        [("email", .vstr "b@x.y"), ("password", .vstr "pw")] =
      ((login plainCrypto "tk" fixtureStateBWithUser
          [("email", .vstr "b@x.y"), ("password", .vstr "pw")]).1,
       setBlocked 2 true
         (login plainCrypto "tk" fixtureStateBWithUser
           [("email", .vstr "b@x.y"), ("password", .vstr "pw")]).2) :=
  have h := is_blocked_not_enforced plainCrypto testArtifacts 2 true
    fixtureStateBWithUser "tk"
    [("email", .vstr "b@x.y"), ("password", .vstr "pw")]
    (some "Bearer x") 0
  ⟨(h.1 fixtureUserB rfl).1, h.2.1⟩

end FlatPrice
